import Mathlib

/-!
Verification of the layer-state synchronization engine of
src/ui/apps/postgis/js/postgis.js (groundcontrol PostGIS browser).

The JavaScript source is shallowly embedded: every definition below is a
direct translation of the corresponding function or handler in postgis.js,
with remote-query responses passed in explicitly as parameters (the remote
query service is an external collaborator).  Machine integers stand in for
JavaScript numbers; non-finite values (NaN, Infinity) are kept as an
explicit constructor because the source tests Number.isFinite.
-/

/-- A JavaScript number as observed after a Number(v) coercion: either a
finite value (modelled as an integer) or a non-finite one (NaN, ±Infinity). -/
inductive JsNum where
  | fin (n : Int)
  | nonfinite
deriving DecidableEq, Repr

/-- A catalog layer as produced by loadLayerCatalog: schema, table name,
the fully-qualified name stored in full (built as schema ++ "." ++ name),
geometry column, and the nullable non-null-geometry count (null until
hydration, meaning unknown / assume non-empty). -/
structure Layer where
  schema : String
  name : String
  full : String
  geomCol : String
  geomCount : Option Int
deriving DecidableEq, Repr

/-- renderLayerList line 288: emptyGeom = (layer.geomCount != null && layer.geomCount <= 0). -/
def emptyGeom (l : Layer) : Bool :=
  match l.geomCount with
  | some n => decide (n ≤ 0)
  | none => false

/-- init line 515: the predicate of layers.find — (l.geomCount == null ? true : l.geomCount > 0). -/
def qualifies (l : Layer) : Bool :=
  match l.geomCount with
  | none => true
  | some n => decide (0 < n)

/-- hydrateGeomCounts lines 119-121, the per-cell coercion:
l.geomCount = (v == null) ? 0 : Number(v); if (!Number.isFinite(l.geomCount)) l.geomCount = 0. -/
def coerceCount : Option JsNum → Int
  | none => 0
  | some (JsNum.fin n) => n
  | some JsNum.nonfinite => 0

/-- hydrateGeomCounts lines 101-124: given the single result row of the
batched count query (a map from the layer's full name to the returned cell,
none standing for SQL NULL or a missing column), fill in every geomCount. -/
def hydrateGeomCounts (row : String → Option JsNum) (layers : List Layer) : List Layer :=
  layers.map fun l => { l with geomCount := some (coerceCount (row l.full)) }

/-- getLayerSrid lines 171-172: srid = Number(rows[0]?.srid);
safe = Number.isFinite(srid) && srid > 0 ? srid : 4326. -/
def sridOf (resp : Option JsNum) : Int :=
  match resp with
  | some (JsNum.fin n) => if 0 < n then n else 4326
  | _ => 4326

/-- Lookup in the sridCache Map (association list, most recent first). -/
def cacheGet : List (String × Int) → String → Option Int
  | [], _ => none
  | (k, v) :: rest, id => if k = id then some v else cacheGet rest id

/-- Result of one getLayerSrid call: the value returned, the cache after
the call, and whether a remote lookup was issued. -/
structure SridCall where
  srid : Int
  cache : List (String × Int)
  queried : Bool
deriving DecidableEq, Repr

/-- getLayerSrid lines 158-175: cache hit returns the memoized value with no
remote query; cache miss issues one query (response resp), coerces it with
the finite-and-positive guard, memoizes and returns it. -/
def getLayerSrid (cache : List (String × Int)) (l : Layer) (resp : Option JsNum) : SridCall :=
  match cacheGet cache l.full with
  | some v => ⟨v, cache, false⟩
  | none =>
    let safe := sridOf resp
    ⟨safe, (l.full, safe) :: cache, true⟩

/-- Total number of remote SRID lookups issued by a sequence of getLayerSrid
calls for the same layer, threading the cache (one response per call). -/
def sridQueryCount (cache : List (String × Int)) (l : Layer) : List (Option JsNum) → Nat
  | [] => 0
  | r :: rs =>
    let c := getLayerSrid cache l r
    (if c.queried then 1 else 0) + sridQueryCount c.cache l rs

/-- Values returned by a sequence of getLayerSrid calls for the same layer. -/
def sridResults (cache : List (String × Int)) (l : Layer) : List (Option JsNum) → List Int
  | [] => []
  | r :: rs =>
    let c := getLayerSrid cache l r
    c.srid :: sridResults c.cache l rs

/-- A planar point (coordinates as integers). -/
abbrev Pt := Int × Int

/-- The single row returned by the extent query of getLayerExtent4326:
ST_XMin/ST_YMin/ST_XMax/ST_YMax of the aggregate extent, each SQL NULL
(modelled none) when the aggregate ST_Extent is NULL. -/
structure ExtentRow where
  west : Option Int
  south : Option Int
  east : Option Int
  north : Option Int
deriving DecidableEq, Repr

/-- The points contributing to the extent aggregate: all points of the
non-null geometries of the table, routed through the geomExpr of
getLayerExtent4326 line 180 — the identity when srid === 4326, otherwise
ST_Transform(g, 4326) (modelled by the function transform). -/
def extentPoints (transform : Pt → Pt) (srid : Int) (table : List (Option (List Pt))) : List Pt :=
  ((table.filterMap id).flatten).map fun p => if srid = 4326 then p else transform p

/-- Evaluation of the extent query issued by getLayerExtent4326 lines 182-193
under PostGIS semantics: an aggregate query always returns exactly one row;
ST_Extent over an empty set of geometries is NULL, making all four
coordinates NULL, otherwise the row carries the min/max coordinates. -/
def extentRowOf (transform : Pt → Pt) (srid : Int) (table : List (Option (List Pt))) : ExtentRow :=
  match extentPoints transform srid table with
  | [] => ⟨none, none, none, none⟩
  | p :: ps =>
    ⟨some ((ps.map Prod.fst).foldl min p.1),
     some ((ps.map Prod.snd).foldl min p.2),
     some ((ps.map Prod.fst).foldl max p.1),
     some ((ps.map Prod.snd).foldl max p.2)⟩

/-- getLayerExtent4326 lines 177-197 after the remote call:
return data?.rows?.[0] || null — the first row of the response when one
exists, null otherwise (and the aggregate response always has one row). -/
def getLayerExtent4326 (transform : Pt → Pt) (srid : Int) (table : List (Option (List Pt))) :
    Option ExtentRow :=
  [extentRowOf transform srid table].head?

/-- A viewport bounding box in geographic degrees (west/south/east/north),
coordinates as integers. -/
structure BBox where
  west : Int
  south : Int
  east : Int
  north : Int
deriving DecidableEq, Repr

/-- buildViewportSQL line 201 (and getLayerExtent4326 line 180):
const geomExpr = srid === 4326 ? g : `ST_Transform(${g}, 4326)`. -/
def geomExprOf (g : String) (srid : Int) : String :=
  if srid = 4326 then g else "ST_Transform(" ++ g ++ ", 4326)"

/-- buildViewportSQL lines 199-215: the trimmed template literal, with the
numeric interpolations rendered by toString. -/
def buildViewportSQL (l : Layer) (bbox : BBox) (srid : Int) (limit : Int) : String :=
  let g := l.geomCol
  let geomExpr := geomExprOf g srid
  "SELECT\n          *,\n          "
    ++ ("ST_AsGeoJSON(" ++ geomExpr ++ ") AS geojson")
    ++ "\n        FROM " ++ l.full ++ "\n        "
    ++ ("WHERE " ++ g ++ " IS NOT NULL")
    ++ "\n          AND "
    ++ ("ST_Intersects(\n            " ++ geomExpr ++ ",\n            ST_MakeEnvelope("
        ++ toString bbox.west ++ ", " ++ toString bbox.south ++ ", " ++ toString bbox.east
        ++ ", " ++ toString bbox.north ++ ", 4326)")
    ++ "\n          )\n        "
    ++ ("LIMIT " ++ toString limit ++ ";")

/-- t occurs as a contiguous substring of s. -/
def containsSub (s t : String) : Prop := ∃ p q, s = p ++ t ++ q

/-- The in-place swap of moveLayer lines 151-153:
tmp = order[idx]; order[idx] = order[j]; order[j] = tmp. -/
def swapIdx (l : List String) (i j : Nat) : List String :=
  (l.set i (l.getD j "")).set j (l.getD i "")

/-- order.indexOf(layerId) of moveLayer line 147: the first index holding id,
none standing for the JavaScript -1. -/
def indexOfId : List String → String → Option Nat
  | [], _ => none
  | x :: xs, id => if x = id then some 0 else (indexOfId xs id).map (· + 1)

/-- moveLayer lines 146-156: look up the index of layerId in order (indexOf,
-1 when absent), no-op when absent or when the swap target idx + dir falls
outside the sequence, otherwise swap the two slots. -/
def moveLayer (order : List String) (id : String) (dir : Int) : List String :=
  match indexOfId order id with
  | none => order
  | some idx =>
    if (idx : Int) + dir < 0 ∨ (order.length : Int) ≤ (idx : Int) + dir then order
    else swapIdx order idx ((idx : Int) + dir).toNat

/-- btnRunSql lines 465-468 (the order mutation of addSyntheticLayer):
if (!order.includes(advId)) order.push(advId). -/
def addSyntheticId (order : List String) (id : String) : List String :=
  if id ∈ order then order else order ++ [id]

/-- ensureOrderInitialized lines 140-144: if order is empty, seed it with the
catalog layer fulls in catalog order. -/
def ensureOrderInitialized (order : List String) (layers : List Layer) : List String :=
  if order.isEmpty then layers.map Layer.full else order

/-- An operation on the stacking order: a reorder button press or the
advanced-SQL synthetic layer registration. -/
inductive OrderOp where
  | move (id : String) (dir : Int)
  | addSyn (id : String)
deriving DecidableEq, Repr

def applyOrderOp (order : List String) : OrderOp → List String
  | OrderOp.move id dir => moveLayer order id dir
  | OrderOp.addSyn id => addSyntheticId order id

def applyOrderOps (order : List String) : List OrderOp → List String
  | [] => order
  | op :: ops => applyOrderOps (applyOrderOp order op) ops

/-- The process-wide registry state of window.GCPostgisApp lines 127-134:
catalog layer list, active layer, visibility set, loaded set, stacking
order, and the SRID cache. -/
structure RegState where
  layers : List Layer
  active : Option Layer
  visible : List String
  loaded : List String
  order : List String
  sridCache : List (String × Int)
deriving DecidableEq, Repr

/-- Set.add on a set modelled as a duplicate-free list. -/
def sAdd (s : List String) (id : String) : List String := if id ∈ s then s else id :: s

/-- Set.delete on a set modelled as a list. -/
def sDel (s : List String) (id : String) : List String := s.filter (fun x => x != id)

/-- The synthetic layer id of the advanced-SQL path, btnRunSql line 465. -/
def advId : String := "advanced-sql"

/-- The per-row layer lookup of renderLayerList: the row for a given
layerId belongs to the (first) catalog layer with that full name. -/
def findLayer (layers : List Layer) (id : String) : Option Layer :=
  layers.find? (fun l => l.full == id)

/-- Outcome of one loadLayerInViewport call, as observed by the registry:
either the SRID lookup threw, or the viewport query threw (after the SRID
was resolved, with sridResp the SRID-query response consumed on a cache
miss), or the query succeeded with featureCount features. -/
inductive LoadOutcome where
  | sridErr
  | queryErr (sridResp : Option JsNum)
  | ok (sridResp : Option JsNum) (featureCount : Nat)
deriving DecidableEq, Repr

/-- The registry-visible effect of one loadLayerInViewport call
(lines 217-247): resolve the SRID (memoizing on a miss), run the viewport
query, and on success mark the layer loaded. -/
structure LoadEffect where
  loaded : List String
  sridCache : List (String × Int)
  failed : Bool
  featureCount : Nat
deriving DecidableEq, Repr

def loadLayerInViewport (loaded : List String) (cache : List (String × Int)) (l : Layer) :
    LoadOutcome → LoadEffect
  | LoadOutcome.sridErr => ⟨loaded, cache, true, 0⟩
  | LoadOutcome.queryErr r => ⟨loaded, (getLayerSrid cache l r).cache, true, 0⟩
  | LoadOutcome.ok r cnt => ⟨sAdd loaded l.full, (getLayerSrid cache l r).cache, false, cnt⟩

/-- Outcome of one getLayerExtent4326 call inside the fallback: either the
call threw, or it returned its single row (sridResp is the SRID-query
response its internal getLayerSrid would consume on a cache miss). -/
inductive ExtentOutcome where
  | err (sridResp : Option JsNum)
  | ok (sridResp : Option JsNum) (row : ExtentRow)
deriving DecidableEq, Repr

/-- Result of one viewport-load-with-extent-fallback flow: the loaded set
and SRID cache afterwards, and how many loadLayerInViewport calls ran. -/
structure FlowResult where
  loaded : List String
  sridCache : List (String × Int)
  loads : Nat
deriving DecidableEq, Repr

/-- The extent fallback shared by the row click handler (lines 383-405, both
the not-yet-loaded and the already-loaded branch have the same
registry-visible effect) and by init (lines 526-536): load once; if that
load fails stop (the surrounding catch alerts or swallows); if it returned
zero features fetch the extent, and only when the extent call succeeded and
its west coordinate is non-null fit the surface and retry exactly once. -/
def loadFallbackRun (loaded0 : List String) (cache0 : List (String × Int)) (l : Layer)
    (out1 : LoadOutcome) (ext : ExtentOutcome) (out2 : LoadOutcome) : FlowResult :=
  let e1 := loadLayerInViewport loaded0 cache0 l out1
  if e1.failed then ⟨e1.loaded, e1.sridCache, 1⟩
  else if e1.featureCount = 0 then
    match ext with
    | ExtentOutcome.err r => ⟨e1.loaded, (getLayerSrid e1.sridCache l r).cache, 1⟩
    | ExtentOutcome.ok r row =>
      let cache1 := (getLayerSrid e1.sridCache l r).cache
      if row.west ≠ none then
        let e2 := loadLayerInViewport e1.loaded cache1 l out2
        ⟨e2.loaded, e2.sridCache, 2⟩
      else ⟨e1.loaded, cache1, 1⟩
  else ⟨e1.loaded, e1.sridCache, 1⟩

/-- The checkbox change handler of renderLayerList lines 295-316, returning
the new state and whether an error alert was surfaced.  A disabled checkbox
(empty layer, lines 288-293) cannot fire a change event, so that case is the
identity.  On checking a not-yet-loaded layer whose load fails, the handler
deletes the layer from visible again and reverts the checkbox. -/
def cbToggleStep (s : RegState) (id : String) (checked : Bool) (out : LoadOutcome) :
    RegState × Bool :=
  match findLayer s.layers id with
  | none => (s, false)
  | some l =>
    if emptyGeom l then (s, false)
    else if checked then
      let s1 := { s with visible := sAdd s.visible l.full }
      if l.full ∈ s.loaded then (s1, false)
      else
        let e := loadLayerInViewport s1.loaded s1.sridCache l out
        if e.failed then
          ({ s1 with visible := sDel s1.visible l.full,
                     loaded := e.loaded, sridCache := e.sridCache }, true)
        else ({ s1 with loaded := e.loaded, sridCache := e.sridCache }, false)
    else ({ s with visible := sDel s.visible l.full }, false)

/-- The row click handler of renderLayerList lines 368-409, returning the
new state and the number of viewport loads it performed: select the layer
as active; an empty layer only updates labels; otherwise mark it visible
and run the viewport load with the single-retry extent fallback. -/
def rowClickRun (s : RegState) (id : String) (out1 : LoadOutcome) (ext : ExtentOutcome)
    (out2 : LoadOutcome) : RegState × Nat :=
  match findLayer s.layers id with
  | none => (s, 0)
  | some l =>
    let s0 := { s with active := some l }
    if emptyGeom l then (s0, 0)
    else
      let s1 := { s0 with visible := sAdd s0.visible l.full }
      let fr := loadFallbackRun s1.loaded s1.sridCache l out1 ext out2
      ({ s1 with loaded := fr.loaded, sridCache := fr.sridCache }, fr.loads)

/-- Outcome of the advanced-SQL button: the query threw, or it returned rows
without a drawable geojson column (alert, no registry change), or it
produced a non-empty feature collection. -/
inductive RunSqlOutcome where
  | err
  | noGeojson
  | ok
deriving DecidableEq, Repr

/-- btnRunSql click handler lines 450-481: on success register the synthetic
advanced-sql layer as visible and loaded and append it to order if absent. -/
def runSqlStep (s : RegState) : RunSqlOutcome → RegState
  | RunSqlOutcome.ok =>
    { s with visible := sAdd s.visible advId, loaded := sAdd s.loaded advId,
             order := addSyntheticId s.order advId }
  | _ => s

/-- runActiveViewportLoad lines 249-253 (driven by btnReload, the debounced
moveend handler, and btnFillViewportSql): reload the active layer only if
there is one and it is visible. -/
def reloadStep (s : RegState) (out : LoadOutcome) : RegState :=
  match s.active with
  | none => s
  | some a =>
    if a.full ∈ s.visible then
      let e := loadLayerInViewport s.loaded s.sridCache a out
      { s with loaded := e.loaded, sridCache := e.sridCache }
    else s

/-- btnClear click handler lines 424-441: clears loaded, visible and
sridCache (and the rendering surface and labels); order and active are not
touched. -/
def clearStep (s : RegState) : RegState :=
  { s with visible := [], loaded := [], sridCache := [] }

/-- Up/Down button press: moveLayer on the order sequence. -/
def moveStep (s : RegState) (id : String) (dir : Int) : RegState :=
  { s with order := moveLayer s.order id dir }

/-- A user-driven registry operation, with the remote responses it consumes
passed in as data. -/
inductive Op where
  | toggle (id : String) (checked : Bool) (out : LoadOutcome)
  | rowClick (id : String) (out1 : LoadOutcome) (ext : ExtentOutcome) (out2 : LoadOutcome)
  | clearBtn
  | runSql (out : RunSqlOutcome)
  | reload (out : LoadOutcome)
  | move (id : String) (dir : Int)
deriving DecidableEq, Repr

def step (s : RegState) : Op → RegState
  | Op.toggle id c out => (cbToggleStep s id c out).1
  | Op.rowClick id o1 e o2 => (rowClickRun s id o1 e o2).1
  | Op.clearBtn => clearStep s
  | Op.runSql out => runSqlStep s out
  | Op.reload out => reloadStep s out
  | Op.move id dir => moveStep s id dir

def runOps (s : RegState) : List Op → RegState
  | [] => s
  | op :: ops => runOps (step s op) ops

/-- init lines 500-543 on an already-hydrated catalog: seed order, pick the
first layer with null-or-positive count as active (else the first layer),
mark it visible and run the initial load with the extent fallback only when
it so qualifies; an empty catalog leaves everything empty.  Returns the
state together with the number of viewport loads performed. -/
def initRun (layers : List Layer) (out1 : LoadOutcome) (ext : ExtentOutcome)
    (out2 : LoadOutcome) : RegState × Nat :=
  let order := ensureOrderInitialized [] layers
  match (layers.find? qualifies).orElse (fun _ => layers.head?) with
  | none => (⟨layers, none, [], [], order, []⟩, 0)
  | some a =>
    if qualifies a then
      let fr := loadFallbackRun [] [] a out1 ext out2
      (⟨layers, some a, sAdd [] a.full, fr.loaded, order, fr.sridCache⟩, fr.loads)
    else (⟨layers, some a, [], [], order, []⟩, 0)

/-- The state after startup. -/
def initState (layers : List Layer) (out1 : LoadOutcome) (ext : ExtentOutcome)
    (out2 : LoadOutcome) : RegState :=
  (initRun layers out1 ext out2).1

/-- Invariant 1 of the spec data model: every cataloged layer marked
visible has a null or positive hydrated count. -/
def GoodVis (s : RegState) : Prop :=
  ∀ l ∈ s.layers, l.full ∈ s.visible → qualifies l = true

/-- A concrete non-empty demo layer used by witnesses. -/
def demoLayer : Layer := ⟨"public", "fields", "public.fields", "geom", some 5⟩

/-- A concrete known-empty demo layer used by witnesses. -/
def demoLayer0 : Layer := ⟨"public", "plots", "public.plots", "geom", some 0⟩

/-- A concrete registry state with a populated SRID cache, used by witnesses. -/
def demoState : RegState :=
  ⟨[demoLayer, demoLayer0], some demoLayer, [], [], ["public.fields", "public.plots"],
   [("public.fields", 3857)]⟩

/-- A concrete viewport used by witnesses. -/
def demoBBox : BBox := ⟨-86, 32, -85, 33⟩

theorem qualifies_eq_not_emptyGeom (l : Layer) : qualifies l = !emptyGeom l := by
  cases h : l.geomCount with
  | none => simp [qualifies, emptyGeom, h]
  | some n =>
    simp only [qualifies, emptyGeom, h, ← decide_not, decide_eq_decide]
    omega

theorem cacheGet_getLayerSrid_self (cache : List (String × Int)) (l : Layer) (r : Option JsNum) :
    cacheGet (getLayerSrid cache l r).cache l.full = some (getLayerSrid cache l r).srid := by
  unfold getLayerSrid
  cases h : cacheGet cache l.full with
  | some v => simp [h]
  | none => simp [h, cacheGet]

theorem getLayerSrid_preserves (cache : List (String × Int)) (l : Layer) (r : Option JsNum)
    (id : String) (v : Int) (h : cacheGet cache id = some v) :
    cacheGet (getLayerSrid cache l r).cache id = some v := by
  unfold getLayerSrid
  cases hm : cacheGet cache l.full with
  | some w => simpa [hm] using h
  | none =>
    simp only [cacheGet]
    have hne : l.full ≠ id := by
      intro he
      rw [he, h] at hm
      exact Option.noConfusion hm
    simp [hne, h]

theorem sridQueryCount_of_hit (cache : List (String × Int)) (l : Layer) (v : Int)
    (h : cacheGet cache l.full = some v) :
    ∀ resps, sridQueryCount cache l resps = 0 := by
  intro resps
  induction resps with
  | nil => rfl
  | cons r rs ih =>
    unfold sridQueryCount
    have hcall : getLayerSrid cache l r = ⟨v, cache, false⟩ := by
      unfold getLayerSrid; rw [h]
    rw [hcall]
    simpa using ih

theorem sridResults_of_hit (cache : List (String × Int)) (l : Layer) (v : Int)
    (h : cacheGet cache l.full = some v) :
    ∀ resps x, x ∈ sridResults cache l resps → x = v := by
  intro resps
  induction resps with
  | nil => intro x hx; cases hx
  | cons r rs ih =>
    intro x hx
    unfold sridResults at hx
    have hcall : getLayerSrid cache l r = ⟨v, cache, false⟩ := by
      unfold getLayerSrid; rw [h]
    rw [hcall] at hx
    rcases List.mem_cons.mp hx with h1 | h2
    · exact h1
    · exact ih x h2

theorem sridQueryCount_le_one (cache : List (String × Int)) (l : Layer)
    (resps : List (Option JsNum)) : sridQueryCount cache l resps ≤ 1 := by
  cases resps with
  | nil => simp [sridQueryCount]
  | cons r rs =>
    have hself := cacheGet_getLayerSrid_self cache l r
    have hrest := sridQueryCount_of_hit (getLayerSrid cache l r).cache l
      (getLayerSrid cache l r).srid hself rs
    simp only [sridQueryCount, hrest]
    split <;> simp

theorem sridResults_all_eq_head (cache : List (String × Int)) (l : Layer)
    (r : Option JsNum) (rs : List (Option JsNum)) :
    ∀ x ∈ sridResults cache l (r :: rs), x = (getLayerSrid cache l r).srid := by
  intro x hx
  unfold sridResults at hx
  rcases List.mem_cons.mp hx with h1 | h2
  · exact h1
  · exact sridResults_of_hit (getLayerSrid cache l r).cache l
      (getLayerSrid cache l r).srid (cacheGet_getLayerSrid_self cache l r) rs x h2

theorem length_swapIdx (l : List String) (i j : Nat) :
    (swapIdx l i j).length = l.length := by
  simp [swapIdx]

theorem getElem_swapIdx (l : List String) (i j k : Nat) (hi : i < l.length) (hj : j < l.length)
    (hk : k < (swapIdx l i j).length) (hk2 : k < l.length) :
    (swapIdx l i j)[k] = if k = j then l[i] else if k = i then l[j] else l[k] := by
  unfold swapIdx at hk ⊢
  rw [List.getElem_set, List.getElem_set]
  simp only [List.getD_eq_getElem l "" hj, List.getD_eq_getElem l "" hi]
  split_ifs <;> first | rfl | omega

theorem swapIdx_nodup (l : List String) (i j : Nat) (hi : i < l.length) (hj : j < l.length)
    (h : l.Nodup) : (swapIdx l i j).Nodup := by
  have hlen : (swapIdx l i j).length = l.length := length_swapIdx l i j
  have hinj := List.nodup_iff_injective_get.mp h
  rw [List.nodup_iff_injective_get]
  rintro ⟨a, ha⟩ ⟨b, hb⟩ hab
  have ha2 : a < l.length := by omega
  have hb2 : b < l.length := by omega
  have key : ∀ (k : Nat) (hk : k < (swapIdx l i j).length) (hk2 : k < l.length),
      (swapIdx l i j).get ⟨k, hk⟩ =
        l.get ⟨if k = j then i else if k = i then j else k, by split_ifs <;> omega⟩ := by
    intro k hk hk2
    simp only [List.get_eq_getElem]
    rw [getElem_swapIdx l i j k hi hj hk hk2]
    split_ifs <;> rfl
  rw [key a ha ha2, key b hb hb2] at hab
  have hv := congrArg Fin.val (hinj hab)
  simp only at hv
  apply Fin.ext
  simp only
  split_ifs at hv <;> omega

theorem indexOfId_lt_length :
    ∀ {l : List String} {id : String} {i : Nat}, indexOfId l id = some i → i < l.length := by
  intro l
  induction l with
  | nil => intro id i h; exact Option.noConfusion h
  | cons a as ih =>
    intro id i h
    unfold indexOfId at h
    by_cases hp : a = id
    · rw [if_pos hp] at h
      cases h
      simp
    · rw [if_neg hp] at h
      rcases Option.map_eq_some.mp h with ⟨k, hk, hki⟩
      have := ih hk
      simp only [List.length_cons]
      omega

theorem indexOfId_eq_none_of_not_mem :
    ∀ {l : List String} {id : String}, id ∉ l → indexOfId l id = none := by
  intro l
  induction l with
  | nil => intro id _; rfl
  | cons a as ih =>
    intro id h
    unfold indexOfId
    have ha : a ≠ id := fun he => h (he ▸ List.mem_cons_self a as)
    rw [if_neg ha, ih (fun hm => h (List.mem_cons_of_mem a hm))]
    rfl

theorem moveLayer_nodup (order : List String) (id : String) (dir : Int)
    (h : order.Nodup) : (moveLayer order id dir).Nodup := by
  unfold moveLayer
  cases hf : indexOfId order id with
  | none => exact h
  | some idx =>
    have hidx : idx < order.length := indexOfId_lt_length hf
    dsimp only
    by_cases hb : (idx : Int) + dir < 0 ∨ (order.length : Int) ≤ (idx : Int) + dir
    · rw [if_pos hb]; exact h
    · rw [if_neg hb]
      push_neg at hb
      exact swapIdx_nodup order idx ((idx : Int) + dir).toNat hidx (by omega) h

theorem addSyntheticId_nodup (order : List String) (id : String)
    (h : order.Nodup) : (addSyntheticId order id).Nodup := by
  unfold addSyntheticId
  split
  · exact h
  · rename_i hni
    simp [List.nodup_append, h, hni]

theorem applyOrderOps_nodup (order : List String) (h : order.Nodup) :
    ∀ ops : List OrderOp, (applyOrderOps order ops).Nodup := by
  intro ops
  induction ops generalizing order with
  | nil => exact h
  | cons op rest ih =>
    cases op with
    | move id dir => exact ih _ (moveLayer_nodup order id dir h)
    | addSyn id => exact ih _ (addSyntheticId_nodup order id h)

theorem mem_sAdd (s : List String) (id x : String) :
    x ∈ sAdd s id ↔ x = id ∨ x ∈ s := by
  unfold sAdd
  split
  · rename_i hm
    constructor
    · exact fun h => Or.inr h
    · rintro (rfl | h)
      · exact hm
      · exact h
  · simp [List.mem_cons]

theorem mem_sDel (s : List String) (id x : String) :
    x ∈ sDel s id ↔ x ∈ s ∧ x ≠ id := by
  unfold sDel
  rw [List.mem_filter]
  simp [bne_iff_ne]

theorem sDel_eq_self (s : List String) (id : String) (h : id ∉ s) : sDel s id = s := by
  unfold sDel
  apply List.filter_eq_self.mpr
  intro x hx
  simp only [bne_iff_ne, ne_eq, decide_eq_true_eq]
  intro he
  exact h (he ▸ hx)

theorem sDel_sAdd (s : List String) (id : String) (h : id ∉ s) :
    sDel (sAdd s id) id = s := by
  unfold sAdd
  rw [if_neg h]
  unfold sDel
  rw [List.filter_cons]
  simp only [bne_self_eq_false, Bool.false_eq_true, if_neg, if_false]
  exact sDel_eq_self s id h

theorem full_ne_advId (a b : String) : a ++ "." ++ b ≠ advId := by
  intro h
  have hm : '.' ∈ (a ++ "." ++ b).data := by
    rw [String.data_append, String.data_append]
    simp
  rw [h] at hm
  simp [advId] at hm

theorem findLayer_spec (layers : List Layer) (id : String) (l : Layer)
    (h : findLayer layers id = some l) : l ∈ layers ∧ l.full = id := by
  unfold findLayer at h
  refine ⟨List.mem_of_find?_eq_some h, ?_⟩
  have := List.find?_some h
  simpa [beq_iff_eq] using this

theorem qualifies_true_iff (l : Layer) :
    qualifies l = true ↔ (l.geomCount = none ∨ ∃ n, l.geomCount = some n ∧ 0 < n) := by
  cases h : l.geomCount with
  | none => simp [qualifies, h]
  | some n =>
    simp only [qualifies, h, decide_eq_true_eq]
    constructor
    · intro hn
      exact Or.inr ⟨n, rfl, hn⟩
    · rintro (hc | ⟨m, hm, hmp⟩)
      · exact Option.noConfusion hc
      · cases hm
        exact hmp

theorem find?_first {p : Layer → Bool} :
    ∀ (l : List Layer) (i : Nat) (hi : i < l.length),
      p (l.get ⟨i, hi⟩) = true →
      (∀ j (hj : j < l.length), j < i → p (l.get ⟨j, hj⟩) = false) →
      l.find? p = some (l.get ⟨i, hi⟩) := by
  intro l
  induction l with
  | nil => intro i hi; simp at hi
  | cons a as ih =>
    intro i hi hp hfirst
    cases i with
    | zero =>
      have ha : p a = true := by simpa using hp
      simp [List.find?_cons_of_pos _ ha]
    | succ k =>
      have ha : p a = false := hfirst 0 (by simp) (Nat.succ_pos k)
      rw [List.find?_cons_of_neg _ (by simp [ha])]
      exact ih k (by simpa using hi) hp
        (fun j hj hjk => hfirst (j + 1) (by simpa using hj) (by omega))

theorem foldl_min_le_init (x : Int) (xs : List Int) : xs.foldl min x ≤ x := by
  induction xs generalizing x with
  | nil => exact le_refl x
  | cons a as ih => exact le_trans (ih (min x a)) (min_le_left x a)

theorem foldl_min_le_mem (x : Int) (xs : List Int) : ∀ y ∈ xs, xs.foldl min x ≤ y := by
  induction xs generalizing x with
  | nil => intro y hy; cases hy
  | cons a as ih =>
    intro y hy
    rcases List.mem_cons.mp hy with rfl | h
    · exact le_trans (foldl_min_le_init (min x y) as) (min_le_right x y)
    · exact ih (min x a) y h

theorem foldl_min_mem (x : Int) (xs : List Int) : xs.foldl min x ∈ x :: xs := by
  induction xs generalizing x with
  | nil => simp
  | cons a as ih =>
    rcases List.mem_cons.mp (ih (min x a)) with he | h
    · rw [List.foldl_cons, he]
      rcases min_choice x a with hc | hc
      · rw [hc]; simp
      · rw [hc]; simp
    · rw [List.foldl_cons]
      exact List.mem_cons_of_mem x (List.mem_cons_of_mem a h)

theorem foldl_max_ge_init (x : Int) (xs : List Int) : x ≤ xs.foldl max x := by
  induction xs generalizing x with
  | nil => exact le_refl x
  | cons a as ih => exact le_trans (le_max_left x a) (ih (max x a))

theorem foldl_max_ge_mem (x : Int) (xs : List Int) : ∀ y ∈ xs, y ≤ xs.foldl max x := by
  induction xs generalizing x with
  | nil => intro y hy; cases hy
  | cons a as ih =>
    intro y hy
    rcases List.mem_cons.mp hy with rfl | h
    · exact le_trans (le_max_right x y) (foldl_max_ge_init (max x y) as)
    · exact ih (max x a) y h

theorem foldl_max_mem (x : Int) (xs : List Int) : xs.foldl max x ∈ x :: xs := by
  induction xs generalizing x with
  | nil => simp
  | cons a as ih =>
    rcases List.mem_cons.mp (ih (max x a)) with he | h
    · rw [List.foldl_cons, he]
      rcases max_choice x a with hc | hc
      · rw [hc]; simp
      · rw [hc]; simp
    · rw [List.foldl_cons]
      exact List.mem_cons_of_mem x (List.mem_cons_of_mem a h)

theorem cbToggleStep_proj (s : RegState) (id : String) (c : Bool) (out : LoadOutcome) :
    (cbToggleStep s id c out).1.layers = s.layers ∧
    (cbToggleStep s id c out).1.order = s.order ∧
    (cbToggleStep s id c out).1.active = s.active := by
  unfold cbToggleStep
  cases hf : findLayer s.layers id with
  | none => exact ⟨rfl, rfl, rfl⟩
  | some l =>
    dsimp only
    split_ifs <;> exact ⟨rfl, rfl, rfl⟩

theorem rowClickRun_proj (s : RegState) (id : String) (o1 : LoadOutcome) (e : ExtentOutcome)
    (o2 : LoadOutcome) :
    (rowClickRun s id o1 e o2).1.layers = s.layers ∧
    (rowClickRun s id o1 e o2).1.order = s.order := by
  unfold rowClickRun
  cases hf : findLayer s.layers id with
  | none => exact ⟨rfl, rfl⟩
  | some l =>
    dsimp only
    split_ifs <;> exact ⟨rfl, rfl⟩

theorem runSqlStep_proj (s : RegState) (out : RunSqlOutcome) :
    (runSqlStep s out).layers = s.layers ∧ (runSqlStep s out).active = s.active := by
  cases out <;> exact ⟨rfl, rfl⟩

theorem reloadStep_proj (s : RegState) (out : LoadOutcome) :
    (reloadStep s out).layers = s.layers ∧ (reloadStep s out).order = s.order ∧
    (reloadStep s out).visible = s.visible ∧ (reloadStep s out).active = s.active := by
  unfold reloadStep
  cases ha : s.active with
  | none => exact ⟨rfl, rfl, rfl, ha⟩
  | some a =>
    dsimp only
    split_ifs <;> refine ⟨rfl, rfl, rfl, ?_⟩ <;> first | rfl | exact ha

theorem step_layers (s : RegState) (op : Op) : (step s op).layers = s.layers := by
  cases op with
  | toggle id c out => exact (cbToggleStep_proj s id c out).1
  | rowClick id o1 e o2 => exact (rowClickRun_proj s id o1 e o2).1
  | clearBtn => rfl
  | runSql out => exact (runSqlStep_proj s out).1
  | reload out => exact (reloadStep_proj s out).1
  | move id dir => rfl

theorem cbToggleStep_visible_mem (s : RegState) (id : String) (c : Bool) (out : LoadOutcome)
    (x : String) (hx : x ∈ (cbToggleStep s id c out).1.visible) :
    x ∈ s.visible ∨ ∃ l ∈ s.layers, l.full = x ∧ qualifies l = true := by
  unfold cbToggleStep at hx
  cases hf : findLayer s.layers id with
  | none =>
    rw [hf] at hx
    exact Or.inl hx
  | some l =>
    rw [hf] at hx
    obtain ⟨hlm, hlfull⟩ := findLayer_spec s.layers id l hf
    dsimp only at hx
    split_ifs at hx with h1 h2 h3 h4
    · exact Or.inl hx
    · rcases (mem_sAdd _ _ _).mp hx with rfl | hm
      · refine Or.inr ⟨l, hlm, rfl, ?_⟩
        rw [qualifies_eq_not_emptyGeom]
        simp [h1]
      · exact Or.inl hm
    · have := (mem_sDel _ _ _).mp hx
      rcases (mem_sAdd _ _ _).mp this.1 with rfl | hm
      · refine Or.inr ⟨l, hlm, rfl, ?_⟩
        rw [qualifies_eq_not_emptyGeom]
        simp [h1]
      · exact Or.inl hm
    · rcases (mem_sAdd _ _ _).mp hx with rfl | hm
      · refine Or.inr ⟨l, hlm, rfl, ?_⟩
        rw [qualifies_eq_not_emptyGeom]
        simp [h1]
      · exact Or.inl hm
    · exact Or.inl ((mem_sDel _ _ _).mp hx).1

theorem rowClickRun_visible_mem (s : RegState) (id : String) (o1 : LoadOutcome)
    (e : ExtentOutcome) (o2 : LoadOutcome) (x : String)
    (hx : x ∈ (rowClickRun s id o1 e o2).1.visible) :
    x ∈ s.visible ∨ ∃ l ∈ s.layers, l.full = x ∧ qualifies l = true := by
  unfold rowClickRun at hx
  cases hf : findLayer s.layers id with
  | none =>
    rw [hf] at hx
    exact Or.inl hx
  | some l =>
    rw [hf] at hx
    obtain ⟨hlm, hlfull⟩ := findLayer_spec s.layers id l hf
    dsimp only at hx
    split_ifs at hx with h1
    · exact Or.inl hx
    · rcases (mem_sAdd _ _ _).mp hx with rfl | hm
      · refine Or.inr ⟨l, hlm, rfl, ?_⟩
        rw [qualifies_eq_not_emptyGeom]
        simp [h1]
      · exact Or.inl hm

theorem step_visible_mem (s : RegState) (op : Op) (x : String)
    (hx : x ∈ (step s op).visible) :
    x ∈ s.visible ∨ (∃ l ∈ s.layers, l.full = x ∧ qualifies l = true) ∨ x = advId := by
  cases op with
  | toggle id c out =>
    rcases cbToggleStep_visible_mem s id c out x hx with h | h
    · exact Or.inl h
    · exact Or.inr (Or.inl h)
  | rowClick id o1 e o2 =>
    rcases rowClickRun_visible_mem s id o1 e o2 x hx with h | h
    · exact Or.inl h
    · exact Or.inr (Or.inl h)
  | clearBtn => cases hx
  | runSql out =>
    cases out with
    | ok =>
      rcases (mem_sAdd _ _ _).mp hx with rfl | hm
      · exact Or.inr (Or.inr rfl)
      · exact Or.inl hm
    | err => exact Or.inl hx
    | noGeojson => exact Or.inl hx
  | reload out =>
    have hx2 : x ∈ (reloadStep s out).visible := hx
    rw [(reloadStep_proj s out).2.2.1] at hx2
    exact Or.inl hx2
  | move id dir => exact Or.inl hx

theorem goodVis_step (s : RegState) (op : Op)
    (hnd : (s.layers.map Layer.full).Nodup)
    (hdot : ∀ l ∈ s.layers, l.full = l.schema ++ "." ++ l.name)
    (hg : GoodVis s) : GoodVis (step s op) := by
  intro l hl hv
  rw [step_layers] at hl
  rcases step_visible_mem s op l.full hv with h1 | ⟨l2, hl2, hfull, hq⟩ | h3
  · exact hg l hl h1
  · have heq : l2 = l := List.inj_on_of_nodup_map hnd hl2 hl hfull
    exact heq ▸ hq
  · exact absurd ((hdot l hl) ▸ h3) (full_ne_advId l.schema l.name)

theorem goodVis_runOps (s : RegState)
    (hnd : (s.layers.map Layer.full).Nodup)
    (hdot : ∀ l ∈ s.layers, l.full = l.schema ++ "." ++ l.name)
    (hg : GoodVis s) :
    ∀ ops : List Op, GoodVis (runOps s ops) ∧ (runOps s ops).layers = s.layers := by
  intro ops
  induction ops generalizing s with
  | nil => exact ⟨hg, rfl⟩
  | cons op rest ih =>
    have hls := step_layers s op
    have := ih (step s op) (hls ▸ hnd) (hls ▸ hdot) (goodVis_step s op hnd hdot hg)
    exact ⟨this.1, this.2.trans hls⟩

theorem goodVis_initState (layers : List Layer) (o1 : LoadOutcome) (e : ExtentOutcome)
    (o2 : LoadOutcome) (hnd : (layers.map Layer.full).Nodup) :
    GoodVis (initState layers o1 e o2) ∧ (initState layers o1 e o2).layers = layers := by
  unfold initState initRun
  cases hf : layers.find? qualifies with
  | some a =>
    have hq : qualifies a = true := List.find?_some hf
    have ham : a ∈ layers := List.mem_of_find?_eq_some hf
    simp only [Option.orElse, hq, if_true]
    refine ⟨?_, by simp⟩
    intro l hl hv
    simp only [sAdd, List.not_mem_nil, if_false] at hv
    have hfe : l.full = a.full := by simpa using hv
    have heq : l = a := List.inj_on_of_nodup_map hnd hl ham hfe
    exact heq ▸ hq
  | none =>
    have hall : ∀ x ∈ layers, ¬ qualifies x = true := List.find?_eq_none.mp hf
    cases hh : layers.head? with
    | none =>
      simp only [Option.orElse, hh]
      exact ⟨fun l hl hv => absurd hv (List.not_mem_nil _), by simp⟩
    | some a =>
      have ham : a ∈ layers := List.mem_of_mem_head? hh
      have hq : qualifies a = false := by
        have := hall a ham
        simpa using this
      simp only [Option.orElse, hh, hq]
      simp only [Bool.false_eq_true, if_false]
      exact ⟨fun l hl hv => absurd hv (List.not_mem_nil _), by simp⟩

theorem loadLayerInViewport_preserves (loaded : List String) (cache : List (String × Int))
    (l : Layer) (out : LoadOutcome) (id : String) (v : Int) (h : cacheGet cache id = some v) :
    cacheGet (loadLayerInViewport loaded cache l out).sridCache id = some v := by
  cases out with
  | sridErr => exact h
  | queryErr r => exact getLayerSrid_preserves cache l r id v h
  | ok r cnt => exact getLayerSrid_preserves cache l r id v h

theorem loadFallbackRun_preserves (loaded0 : List String) (cache0 : List (String × Int))
    (l : Layer) (o1 : LoadOutcome) (e : ExtentOutcome) (o2 : LoadOutcome)
    (id : String) (v : Int) (h : cacheGet cache0 id = some v) :
    cacheGet (loadFallbackRun loaded0 cache0 l o1 e o2).sridCache id = some v := by
  have h1 := loadLayerInViewport_preserves loaded0 cache0 l o1 id v h
  unfold loadFallbackRun
  dsimp only
  split_ifs with hf1 hc
  · exact h1
  · cases e with
    | err r => exact getLayerSrid_preserves _ l r id v h1
    | ok r row =>
      dsimp only
      split_ifs with hw
      · exact loadLayerInViewport_preserves _ _ l o2 id v
          (getLayerSrid_preserves _ l r id v h1)
      · exact getLayerSrid_preserves _ l r id v h1
  · exact h1

theorem step_cache_preserves (s : RegState) (op : Op) (id : String) (v : Int)
    (h : cacheGet s.sridCache id = some v) (hop : op ≠ Op.clearBtn) :
    cacheGet (step s op).sridCache id = some v := by
  cases op with
  | toggle tid c out =>
    show cacheGet (cbToggleStep s tid c out).1.sridCache id = some v
    unfold cbToggleStep
    cases hf : findLayer s.layers tid with
    | none => exact h
    | some l =>
      dsimp only
      split_ifs <;>
        first
          | exact h
          | exact loadLayerInViewport_preserves _ _ l out id v h
  | rowClick rid o1 e o2 =>
    show cacheGet (rowClickRun s rid o1 e o2).1.sridCache id = some v
    unfold rowClickRun
    cases hf : findLayer s.layers rid with
    | none => exact h
    | some l =>
      dsimp only
      split_ifs with h1
      · exact h
      · exact loadFallbackRun_preserves _ _ l o1 e o2 id v h
  | clearBtn => exact absurd rfl hop
  | runSql out => cases out <;> exact h
  | reload out =>
    show cacheGet (reloadStep s out).sridCache id = some v
    unfold reloadStep
    cases ha : s.active with
    | none => exact h
    | some a =>
      dsimp only
      split_ifs
      · exact loadLayerInViewport_preserves _ _ a out id v h
      · exact h
  | move mid dir => exact h

theorem step_order_nodup (s : RegState) (op : Op) (h : s.order.Nodup) :
    (step s op).order.Nodup := by
  cases op with
  | toggle tid c out =>
    show ((cbToggleStep s tid c out).1.order).Nodup
    rw [(cbToggleStep_proj s tid c out).2.1]
    exact h
  | rowClick rid o1 e o2 =>
    show ((rowClickRun s rid o1 e o2).1.order).Nodup
    rw [(rowClickRun_proj s rid o1 e o2).2]
    exact h
  | clearBtn => exact h
  | runSql out =>
    cases out with
    | ok => exact addSyntheticId_nodup _ _ h
    | err => exact h
    | noGeojson => exact h
  | reload out =>
    show ((reloadStep s out).order).Nodup
    rw [(reloadStep_proj s out).2.1]
    exact h
  | move mid dir => exact moveLayer_nodup _ _ _ h

theorem runOps_order_nodup (s : RegState) (h : s.order.Nodup) :
    ∀ ops : List Op, (runOps s ops).order.Nodup := by
  intro ops
  induction ops generalizing s with
  | nil => exact h
  | cons op rest ih => exact ih (step s op) (step_order_nodup s op h)

theorem st_transform_ne (g : String) : "ST_Transform(" ++ g ++ ", 4326)" ≠ g := by
  intro h
  have hlen := congrArg String.length h
  rw [String.length_append, String.length_append] at hlen
  have h13 : ("ST_Transform(" : String).length = 13 := by decide
  have h7 : ((", 4326)" : String)).length = 7 := by decide
  rw [h13, h7] at hlen
  omega

theorem moveLayer_inbounds_spec (ord : List String) (id : String) (dir : Int) (idx : Nat)
    (h1 : indexOfId ord id = some idx)
    (h2 : ¬((idx : Int) + dir < 0 ∨ (ord.length : Int) ≤ (idx : Int) + dir)) :
    moveLayer ord id dir = swapIdx ord idx ((idx : Int) + dir).toNat := by
  unfold moveLayer
  rw [h1]
  dsimp only
  rw [if_neg h2]

theorem swapIdx_getD (l : List String) (i j : Nat) (hi : i < l.length) (hj : j < l.length) :
    (swapIdx l i j).getD j "" = l.getD i "" ∧
    (swapIdx l i j).getD i "" = l.getD j "" ∧
    ∀ k, k ≠ i → k ≠ j → (swapIdx l i j).getD k "" = l.getD k "" := by
  have hlen := length_swapIdx l i j
  refine ⟨?_, ?_, ?_⟩
  · rw [List.getD_eq_getElem _ "" (show j < (swapIdx l i j).length by omega),
      List.getD_eq_getElem _ "" hi,
      getElem_swapIdx l i j j hi hj (by omega) hj]
    simp
  · rw [List.getD_eq_getElem _ "" (show i < (swapIdx l i j).length by omega),
      List.getD_eq_getElem _ "" hj,
      getElem_swapIdx l i j i hi hj (by omega) hi]
    split_ifs with hij hii
    · subst hij
      rfl
    · rfl
    · exact absurd rfl hii
  · intro k hk1 hk2
    by_cases hkl : k < l.length
    · rw [List.getD_eq_getElem _ "" (show k < (swapIdx l i j).length by omega),
        List.getD_eq_getElem _ "" hkl,
        getElem_swapIdx l i j k hi hj (by omega) hkl]
      rw [if_neg hk2, if_neg hk1]
    · rw [List.getD_eq_default, List.getD_eq_default] <;> omega

theorem loadFallbackRun_loads_le_two (loaded0 : List String) (cache0 : List (String × Int))
    (l : Layer) (o1 : LoadOutcome) (e : ExtentOutcome) (o2 : LoadOutcome) :
    (loadFallbackRun loaded0 cache0 l o1 e o2).loads ≤ 2 := by
  unfold loadFallbackRun
  dsimp only
  split_ifs
  · simp
  · cases e with
    | err r => simp
    | ok r row =>
      dsimp only
      split_ifs <;> simp
  · simp

theorem loadFallbackRun_extent_err_one_load (loaded0 : List String)
    (cache0 : List (String × Int)) (l : Layer) (o1 : LoadOutcome) (r : Option JsNum)
    (o2 : LoadOutcome) :
    (loadFallbackRun loaded0 cache0 l o1 (ExtentOutcome.err r) o2).loads ≤ 1 := by
  unfold loadFallbackRun
  dsimp only
  split_ifs <;> simp

theorem loadFallbackRun_extent_none_one_load (loaded0 : List String)
    (cache0 : List (String × Int)) (l : Layer) (o1 : LoadOutcome) (r : Option JsNum)
    (row : ExtentRow) (o2 : LoadOutcome) (hw : row.west = none) :
    (loadFallbackRun loaded0 cache0 l o1 (ExtentOutcome.ok r row) o2).loads ≤ 1 := by
  unfold loadFallbackRun
  dsimp only
  split_ifs with hf hc hw2
  · simp
  · exact absurd hw (by simpa using hw2)
  · simp
  · simp

theorem loadFallbackRun_retry_once (loaded0 : List String) (cache0 : List (String × Int))
    (l : Layer) (r1 r2 : Option JsNum) (row : ExtentRow) (o2 : LoadOutcome)
    (hw : row.west ≠ none) :
    (loadFallbackRun loaded0 cache0 l (LoadOutcome.ok r1 0) (ExtentOutcome.ok r2 row) o2).loads
      = 2 := by
  simp [loadFallbackRun, loadLayerInViewport, hw]

theorem rowClickRun_loads_le_two (s : RegState) (id : String) (o1 : LoadOutcome)
    (e : ExtentOutcome) (o2 : LoadOutcome) : (rowClickRun s id o1 e o2).2 ≤ 2 := by
  unfold rowClickRun
  cases hf : findLayer s.layers id with
  | none => simp
  | some l =>
    dsimp only
    split_ifs
    · simp
    · exact loadFallbackRun_loads_le_two _ _ l o1 e o2

theorem initRun_loads_le_two (layers : List Layer) (o1 : LoadOutcome) (e : ExtentOutcome)
    (o2 : LoadOutcome) : (initRun layers o1 e o2).2 ≤ 2 := by
  unfold initRun
  cases hf : (layers.find? qualifies).orElse fun _ => layers.head? with
  | none => simp
  | some a =>
    dsimp only
    split_ifs
    · exact loadFallbackRun_loads_le_two _ _ a o1 e o2
    · simp

/-- C10: after a successful hydration round trip no layer's count remains
null: a cell that is SQL NULL or missing from the single returned row, or
whose Number coercion is non-finite, is stored as 0 (classifying the layer
as known-empty, which disables its toggle), and a finite value is stored as
that number. -/
theorem hydrate_no_null_counts (row : String → Option JsNum) (layers : List Layer) :
    (hydrateGeomCounts row layers).length = layers.length
    ∧ (∀ l2 ∈ hydrateGeomCounts row layers, l2.geomCount ≠ none)
    ∧ (∀ l ∈ layers,
        (row l.full = none → { l with geomCount := some 0 } ∈ hydrateGeomCounts row layers)
        ∧ (row l.full = some JsNum.nonfinite →
            { l with geomCount := some 0 } ∈ hydrateGeomCounts row layers)
        ∧ (∀ n : Int, row l.full = some (JsNum.fin n) →
            { l with geomCount := some n } ∈ hydrateGeomCounts row layers))
    ∧ (∀ l : Layer, l.geomCount = some 0 → emptyGeom l = true) := by
  refine ⟨by simp [hydrateGeomCounts], ?_, ?_, ?_⟩
  · intro l2 h2
    unfold hydrateGeomCounts at h2
    rcases List.mem_map.mp h2 with ⟨l, _, rfl⟩
    simp
  · intro l hl
    refine ⟨?_, ?_, ?_⟩
    · intro hr
      exact List.mem_map.mpr ⟨l, hl, by simp [hr, coerceCount]⟩
    · intro hr
      exact List.mem_map.mpr ⟨l, hl, by simp [hr, coerceCount]⟩
    · intro n hr
      exact List.mem_map.mpr ⟨l, hl, by simp [hr, coerceCount]⟩
  · intro l h0
    unfold emptyGeom
    rw [h0]
    simp

/-- C10 witness at a concrete catalog and response row. -/
theorem hydrate_no_null_counts_witness :
    { demoLayer with geomCount := some (0 : Int) } ∈
      hydrateGeomCounts (fun _ => some JsNum.nonfinite) [demoLayer] :=
  ((hydrate_no_null_counts (fun _ => some JsNum.nonfinite) [demoLayer]).2.2.1
    demoLayer (by simp)).2.1 rfl

/-- C5: at startup the first layer in catalog order whose count is null or
positive becomes active and alone visible; if none qualifies the first
cataloged layer becomes active, nothing is visible, and no load runs (the
loaded set and SRID cache stay empty and zero loads are performed). -/
theorem init_active_first_nonempty (layers : List Layer) (o1 : LoadOutcome)
    (e : ExtentOutcome) (o2 : LoadOutcome) (hne : layers ≠ []) :
    (∀ (i : Nat) (hi : i < layers.length),
        qualifies (layers.get ⟨i, hi⟩) = true →
        (∀ (j : Nat) (hj : j < layers.length), j < i → qualifies (layers.get ⟨j, hj⟩) = false) →
        (initState layers o1 e o2).active = some (layers.get ⟨i, hi⟩) ∧
        (initState layers o1 e o2).visible = [(layers.get ⟨i, hi⟩).full])
    ∧ ((∀ l ∈ layers, qualifies l = false) →
        (initState layers o1 e o2).active = layers.head? ∧
        (initState layers o1 e o2).visible = [] ∧
        (initState layers o1 e o2).loaded = [] ∧
        (initState layers o1 e o2).sridCache = [] ∧
        (initRun layers o1 e o2).2 = 0)
    ∧ (∀ l : Layer, qualifies l = true ↔
        (l.geomCount = none ∨ ∃ n, l.geomCount = some n ∧ 0 < n)) := by
  refine ⟨?_, ?_, qualifies_true_iff⟩
  · intro i hi hq hfirst
    have hfind : layers.find? qualifies = some (layers.get ⟨i, hi⟩) :=
      find?_first layers i hi hq hfirst
    unfold initState initRun
    rw [hfind]
    simp only [Option.orElse, hq, if_true]
    constructor <;> simp [sAdd]
  · intro hall
    have hfind : layers.find? qualifies = none :=
      List.find?_eq_none.mpr (by intro x hx; simp [hall x hx])
    unfold initState initRun
    rw [hfind]
    cases hh : layers.head? with
    | none =>
      exact absurd (List.head?_eq_none_iff.mp hh) hne
    | some a =>
      have ham : a ∈ layers := List.mem_of_mem_head? hh
      have hqa : qualifies a = false := hall a ham
      simp only [Option.orElse, hh, hqa, Bool.false_eq_true, if_false]
      refine ⟨?_, ?_, ?_, ?_, ?_⟩ <;> first | rfl | trivial

/-- C5 witness: catalog with an empty layer followed by a non-empty one
selects the second layer as active and visible. -/
theorem init_active_first_nonempty_witness :
    (initState [demoLayer0, demoLayer] (LoadOutcome.ok none 2) (ExtentOutcome.err none)
        (LoadOutcome.ok none 0)).active = some demoLayer ∧
    (initState [demoLayer0, demoLayer] (LoadOutcome.ok none 2) (ExtentOutcome.err none)
        (LoadOutcome.ok none 0)).visible = ["public.fields"] := by
  have h := (init_active_first_nonempty [demoLayer0, demoLayer] (LoadOutcome.ok none 2)
    (ExtentOutcome.err none) (LoadOutcome.ok none 0) (by simp)).1 1 (by simp)
    (by decide) (by decide)
  exact ⟨h.1, h.2⟩

/-- C2: in every state reachable from startup through checkbox toggles, row
clicks, clears, reloads, reorders and advanced-SQL runs, the visible set
never contains a cataloged layer with a known zero (or negative) count:
every visible cataloged layer has a null or positive count. -/
theorem visible_only_nonempty (layers : List Layer) (o1 : LoadOutcome) (e : ExtentOutcome)
    (o2 : LoadOutcome) (ops : List Op)
    (hnd : (layers.map Layer.full).Nodup)
    (hdot : ∀ l ∈ layers, l.full = l.schema ++ "." ++ l.name) :
    ∀ l ∈ (runOps (initState layers o1 e o2) ops).layers,
      l.full ∈ (runOps (initState layers o1 e o2) ops).visible →
      l.geomCount = none ∨ ∃ n, l.geomCount = some n ∧ 0 < n := by
  obtain ⟨hg0, hl0⟩ := goodVis_initState layers o1 e o2 hnd
  have hnd2 : ((initState layers o1 e o2).layers.map Layer.full).Nodup := by
    rw [hl0]; exact hnd
  have hdot2 : ∀ l ∈ (initState layers o1 e o2).layers,
      l.full = l.schema ++ "." ++ l.name := by
    rw [hl0]; exact hdot
  have h := goodVis_runOps (initState layers o1 e o2) hnd2 hdot2 hg0 ops
  intro l hl hv
  exact (qualifies_true_iff l).mp (h.1 l hl hv)

/-- C2 witness: after startup on a two-layer demo catalog and a toggle, the
visible non-empty layer indeed has a positive count. -/
theorem visible_only_nonempty_witness :
    demoLayer.geomCount = none ∨ ∃ n, demoLayer.geomCount = some n ∧ 0 < n :=
  visible_only_nonempty [demoLayer0, demoLayer] (LoadOutcome.ok none 2)
    (ExtentOutcome.err none) (LoadOutcome.ok none 0) [] (by decide) (by decide)
    demoLayer (by decide) (by decide)

/-- C1 (amended): the Clear button resets visible, loaded and sridCache to
empty and leaves the catalog intact, but it does not touch order or active:
both keep their pre-clear values. -/
theorem clearBtn_resets_three (s : RegState) :
    (step s Op.clearBtn).visible = [] ∧ (step s Op.clearBtn).loaded = [] ∧
    (step s Op.clearBtn).sridCache = [] ∧ (step s Op.clearBtn).order = s.order ∧
    (step s Op.clearBtn).active = s.active ∧ (step s Op.clearBtn).layers = s.layers :=
  ⟨rfl, rfl, rfl, rfl, rfl, rfl⟩

/-- C1 counterexample: after startup on the one-layer demo catalog, pressing
Clear leaves order still holding the layer and active still set, refuting
the claim that clearAll empties all five pieces of registry state. -/
theorem clearBtn_cex :
    (step (initState [demoLayer] (LoadOutcome.ok none 3) (ExtentOutcome.err none)
        (LoadOutcome.ok none 0)) Op.clearBtn).order = ["public.fields"] ∧
    (step (initState [demoLayer] (LoadOutcome.ok none 3) (ExtentOutcome.err none)
        (LoadOutcome.ok none 0)) Op.clearBtn).active = some demoLayer := by
  constructor <;> decide

/-- C8: checking the checkbox of a cataloged, non-empty, not-yet-loaded,
not-yet-visible layer whose viewport load fails leaves visible exactly as it
was before the toggle, and the failure is surfaced with an alert (the
checkbox is reverted alongside). -/
theorem toggle_on_failure_rollback (s : RegState) (id : String) (l : Layer)
    (out : LoadOutcome)
    (hf : findLayer s.layers id = some l)
    (hee : emptyGeom l = false)
    (hnv : l.full ∉ s.visible)
    (hnl : l.full ∉ s.loaded)
    (herr : (loadLayerInViewport s.loaded s.sridCache l out).failed = true) :
    (cbToggleStep s id true out).1.visible = s.visible ∧
    (cbToggleStep s id true out).2 = true := by
  unfold cbToggleStep
  rw [hf]
  dsimp only
  rw [if_neg (by simp [hee]), if_pos rfl, if_neg hnl, if_pos herr]
  exact ⟨sDel_sAdd s.visible l.full hnv, rfl⟩

/-- C8 witness at a concrete state and failing outcome. -/
theorem toggle_on_failure_rollback_witness :
    (cbToggleStep demoState "public.plots" true LoadOutcome.sridErr).1.visible = [] ∨
    ((cbToggleStep demoState "public.fields" true (LoadOutcome.queryErr none)).1.visible
        = demoState.visible ∧
      (cbToggleStep demoState "public.fields" true (LoadOutcome.queryErr none)).2 = true) :=
  Or.inr (toggle_on_failure_rollback demoState "public.fields" demoLayer
    (LoadOutcome.queryErr none) (by decide) (by decide) (by decide) (by decide) (by decide))

/-- C3: getLayerSrid issues at most one remote lookup per layer identity
over any call sequence (zero when already cached, and every call returns
the first call's value), and a cached SRID entry is never overwritten by
any registry operation other than the Clear button. -/
theorem srid_memoized_and_write_once :
    (∀ (cache : List (String × Int)) (l : Layer) (resps : List (Option JsNum)),
        sridQueryCount cache l resps ≤ 1)
    ∧ (∀ (cache : List (String × Int)) (l : Layer) (v : Int),
        cacheGet cache l.full = some v →
        ∀ resps : List (Option JsNum), sridQueryCount cache l resps = 0)
    ∧ (∀ (cache : List (String × Int)) (l : Layer) (r : Option JsNum)
        (rs : List (Option JsNum)),
        ∀ x ∈ sridResults cache l (r :: rs), x = (getLayerSrid cache l r).srid)
    ∧ (∀ (s : RegState) (op : Op) (id : String) (v : Int),
        cacheGet s.sridCache id = some v → op ≠ Op.clearBtn →
        cacheGet (step s op).sridCache id = some v) :=
  ⟨sridQueryCount_le_one, sridQueryCount_of_hit, sridResults_all_eq_head,
    step_cache_preserves⟩

/-- C3 witness: three calls on an empty cache query once and all return the
same value; an existing entry survives a reorder step. -/
theorem srid_memoized_and_write_once_witness :
    sridQueryCount [] demoLayer [some (JsNum.fin 3857), none, some JsNum.nonfinite] ≤ 1 ∧
    sridQueryCount [("public.fields", 3857)] demoLayer [none, none] = 0 ∧
    cacheGet (step demoState (Op.move "public.plots" 1)).sridCache "public.fields"
      = some 3857 :=
  ⟨srid_memoized_and_write_once.1 [] demoLayer
      [some (JsNum.fin 3857), none, some JsNum.nonfinite],
    srid_memoized_and_write_once.2.1 [("public.fields", 3857)] demoLayer 3857 (by decide)
      [none, none],
    srid_memoized_and_write_once.2.2.2 demoState (Op.move "public.plots" 1)
      "public.fields" 3857 (by decide) (by decide)⟩

/-- C6: a viewport load with the extent fallback performs at most two
loadLayerInViewport calls (one initial load plus at most one retry) from
every starting state, both in the row click handler and in init; if the
extent lookup fails or the extent row's west is null there is no retry; and
when the first load is empty, the extent exists and has a non-null west,
exactly one retry runs regardless of its outcome. -/
theorem extent_fallback_at_most_one_retry :
    (∀ (loaded0 : List String) (cache0 : List (String × Int)) (l : Layer)
        (o1 : LoadOutcome) (e : ExtentOutcome) (o2 : LoadOutcome),
        (loadFallbackRun loaded0 cache0 l o1 e o2).loads ≤ 2)
    ∧ (∀ (s : RegState) (id : String) (o1 : LoadOutcome) (e : ExtentOutcome)
        (o2 : LoadOutcome), (rowClickRun s id o1 e o2).2 ≤ 2)
    ∧ (∀ (layers : List Layer) (o1 : LoadOutcome) (e : ExtentOutcome) (o2 : LoadOutcome),
        (initRun layers o1 e o2).2 ≤ 2)
    ∧ (∀ (loaded0 : List String) (cache0 : List (String × Int)) (l : Layer)
        (o1 : LoadOutcome) (r : Option JsNum) (o2 : LoadOutcome),
        (loadFallbackRun loaded0 cache0 l o1 (ExtentOutcome.err r) o2).loads ≤ 1)
    ∧ (∀ (loaded0 : List String) (cache0 : List (String × Int)) (l : Layer)
        (o1 : LoadOutcome) (r : Option JsNum) (row : ExtentRow) (o2 : LoadOutcome),
        row.west = none →
        (loadFallbackRun loaded0 cache0 l o1 (ExtentOutcome.ok r row) o2).loads ≤ 1)
    ∧ (∀ (loaded0 : List String) (cache0 : List (String × Int)) (l : Layer)
        (r1 r2 : Option JsNum) (row : ExtentRow) (o2 : LoadOutcome),
        row.west ≠ none →
        (loadFallbackRun loaded0 cache0 l (LoadOutcome.ok r1 0)
          (ExtentOutcome.ok r2 row) o2).loads = 2) :=
  ⟨loadFallbackRun_loads_le_two, rowClickRun_loads_le_two, initRun_loads_le_two,
    loadFallbackRun_extent_err_one_load, loadFallbackRun_extent_none_one_load,
    loadFallbackRun_retry_once⟩

/-- C6 witness: an empty first load with a usable extent retries exactly
once, and a failed extent lookup stops after the single load. -/
theorem extent_fallback_at_most_one_retry_witness :
    (loadFallbackRun [] [] demoLayer (LoadOutcome.ok none 0)
        (ExtentOutcome.ok none ⟨some (-86), some 32, some (-85), some 33⟩)
        (LoadOutcome.ok none 0)).loads = 2 ∧
    (loadFallbackRun [] [] demoLayer (LoadOutcome.ok none 0) (ExtentOutcome.err none)
        (LoadOutcome.ok none 7)).loads ≤ 1 :=
  ⟨extent_fallback_at_most_one_retry.2.2.2.2.2 [] [] demoLayer none none
      ⟨some (-86), some 32, some (-85), some 33⟩ (LoadOutcome.ok none 0) (by decide),
    extent_fallback_at_most_one_retry.2.2.2.1 [] [] demoLayer (LoadOutcome.ok none 0)
      none (LoadOutcome.ok none 7)⟩

/-- C9: starting from a duplicate-free order, any sequence of moveLayer and
addSyntheticLayer calls keeps order duplicate-free; moveLayer is a no-op
when the id is absent or the swap target is out of bounds and otherwise
only swaps the two slots idx and idx+dir, leaving all other slots in place;
the synthetic id is appended only when absent; and the full registry step
machine preserves a duplicate-free order as well. -/
theorem order_no_duplicates :
    (∀ start : List String, start.Nodup → ∀ ops : List OrderOp, (applyOrderOps start ops).Nodup)
    ∧ (∀ (ord : List String) (id : String) (dir : Int), id ∉ ord → moveLayer ord id dir = ord)
    ∧ (∀ (ord : List String) (id : String) (dir : Int) (idx : Nat),
        indexOfId ord id = some idx →
        ((idx : Int) + dir < 0 ∨ (ord.length : Int) ≤ (idx : Int) + dir) →
        moveLayer ord id dir = ord)
    ∧ (∀ (ord : List String) (id : String) (dir : Int) (idx : Nat),
        indexOfId ord id = some idx →
        ¬((idx : Int) + dir < 0 ∨ (ord.length : Int) ≤ (idx : Int) + dir) →
        (moveLayer ord id dir).length = ord.length ∧
        (moveLayer ord id dir).getD ((idx : Int) + dir).toNat "" = ord.getD idx "" ∧
        (moveLayer ord id dir).getD idx "" = ord.getD ((idx : Int) + dir).toNat "" ∧
        (∀ k, k ≠ idx → k ≠ ((idx : Int) + dir).toNat →
          (moveLayer ord id dir).getD k "" = ord.getD k ""))
    ∧ (∀ (ord : List String) (id : String), id ∈ ord → addSyntheticId ord id = ord)
    ∧ (∀ (ord : List String) (id : String), id ∉ ord → addSyntheticId ord id = ord ++ [id])
    ∧ (∀ (s : RegState) (ops : List Op), s.order.Nodup → (runOps s ops).order.Nodup) := by
  refine ⟨applyOrderOps_nodup, ?_, ?_, ?_, ?_, ?_,
    fun s ops h => runOps_order_nodup s h ops⟩
  · intro ord id dir h
    unfold moveLayer
    rw [indexOfId_eq_none_of_not_mem h]
  · intro ord id dir idx h1 h2
    unfold moveLayer
    rw [h1]
    dsimp only
    rw [if_pos h2]
  · intro ord id dir idx h1 h2
    have hidx : idx < ord.length := indexOfId_lt_length h1
    have hj : ((idx : Int) + dir).toNat < ord.length := by
      push_neg at h2
      omega
    rw [moveLayer_inbounds_spec ord id dir idx h1 h2]
    obtain ⟨hg1, hg2, hg3⟩ := swapIdx_getD ord idx ((idx : Int) + dir).toNat hidx hj
    exact ⟨length_swapIdx ord idx _, hg1, hg2, fun k hk1 hk2 => hg3 k hk1 hk2⟩
  · intro ord id h
    unfold addSyntheticId
    rw [if_pos h]
  · intro ord id h
    unfold addSyntheticId
    rw [if_neg h]

/-- C9 witness: sample move and synthetic-add sequences on a concrete
duplicate-free order. -/
theorem order_no_duplicates_witness :
    (applyOrderOps ["public.fields", "public.plots"]
        [OrderOp.move "public.fields" 1, OrderOp.addSyn "advanced-sql"]).Nodup ∧
    moveLayer ["public.fields"] "absent.id" 1 = ["public.fields"] ∧
    addSyntheticId ["advanced-sql"] "advanced-sql" = ["advanced-sql"] :=
  ⟨order_no_duplicates.1 ["public.fields", "public.plots"] (by decide)
      [OrderOp.move "public.fields" 1, OrderOp.addSyn "advanced-sql"],
    order_no_duplicates.2.1 ["public.fields"] "absent.id" 1 (by decide),
    order_no_duplicates.2.2.2.2.1 ["advanced-sql"] "advanced-sql" (by decide)⟩

/-- C4 counterexample: on a layer whose one row has a NULL geometry (so the
layer has no geometries), getLayerExtent4326 does not return none — it
returns the aggregate row whose four coordinates are all NULL, refuting the
claim that the function yields none for a geometry-less layer. -/
theorem extent_empty_not_none_cex :
    getLayerExtent4326 (fun p => p) 4326 [none] ≠ none ∧
    getLayerExtent4326 (fun p => p) 4326 [none] = some ⟨none, none, none, none⟩ :=
  ⟨by decide, by decide⟩

/-- C4 (amended): getLayerExtent4326 always returns some row; when the layer
has no geometries that row has four null coordinates (callers detect this by
testing west for null); when geometries exist the row carries the tight
bounding box of all points of the non-null geometries, which are reprojected
by ST_Transform exactly when the layer SRID differs from 4326. -/
theorem extent_result_spec (transform : Pt → Pt) (srid : Int)
    (table : List (Option (List Pt))) :
    (∃ row, getLayerExtent4326 transform srid table = some row)
    ∧ (extentPoints transform srid table = [] →
        getLayerExtent4326 transform srid table = some ⟨none, none, none, none⟩)
    ∧ (∀ p ∈ extentPoints transform srid table,
        ∃ w s e n,
          getLayerExtent4326 transform srid table = some ⟨some w, some s, some e, some n⟩
          ∧ w ≤ p.1 ∧ s ≤ p.2 ∧ p.1 ≤ e ∧ p.2 ≤ n
          ∧ w ∈ (extentPoints transform srid table).map Prod.fst
          ∧ s ∈ (extentPoints transform srid table).map Prod.snd
          ∧ e ∈ (extentPoints transform srid table).map Prod.fst
          ∧ n ∈ (extentPoints transform srid table).map Prod.snd)
    ∧ (srid = 4326 → extentPoints transform srid table = (table.filterMap id).flatten)
    ∧ (srid ≠ 4326 →
        extentPoints transform srid table = ((table.filterMap id).flatten).map transform) := by
  refine ⟨⟨extentRowOf transform srid table, rfl⟩, ?_, ?_, ?_, ?_⟩
  · intro h
    unfold getLayerExtent4326 extentRowOf
    rw [h]
    rfl
  · intro p hp
    cases hpts : extentPoints transform srid table with
    | nil =>
      rw [hpts] at hp
      exact absurd hp (List.not_mem_nil p)
    | cons q qs =>
      rw [hpts] at hp
      refine ⟨(qs.map Prod.fst).foldl min q.1, (qs.map Prod.snd).foldl min q.2,
        (qs.map Prod.fst).foldl max q.1, (qs.map Prod.snd).foldl max q.2,
        ?_, ?_, ?_, ?_, ?_, ?_, ?_, ?_, ?_⟩
      · unfold getLayerExtent4326 extentRowOf
        rw [hpts]
        rfl
      · rcases List.mem_cons.mp hp with rfl | hm
        · exact foldl_min_le_init p.1 (qs.map Prod.fst)
        · exact foldl_min_le_mem q.1 (qs.map Prod.fst) p.1 (List.mem_map_of_mem Prod.fst hm)
      · rcases List.mem_cons.mp hp with rfl | hm
        · exact foldl_min_le_init p.2 (qs.map Prod.snd)
        · exact foldl_min_le_mem q.2 (qs.map Prod.snd) p.2 (List.mem_map_of_mem Prod.snd hm)
      · rcases List.mem_cons.mp hp with rfl | hm
        · exact foldl_max_ge_init p.1 (qs.map Prod.fst)
        · exact foldl_max_ge_mem q.1 (qs.map Prod.fst) p.1 (List.mem_map_of_mem Prod.fst hm)
      · rcases List.mem_cons.mp hp with rfl | hm
        · exact foldl_max_ge_init p.2 (qs.map Prod.snd)
        · exact foldl_max_ge_mem q.2 (qs.map Prod.snd) p.2 (List.mem_map_of_mem Prod.snd hm)
      · rw [List.map_cons]
        exact foldl_min_mem q.1 (qs.map Prod.fst)
      · rw [List.map_cons]
        exact foldl_min_mem q.2 (qs.map Prod.snd)
      · rw [List.map_cons]
        exact foldl_max_mem q.1 (qs.map Prod.fst)
      · rw [List.map_cons]
        exact foldl_max_mem q.2 (qs.map Prod.snd)
  · intro h
    unfold extentPoints
    simp [h]
  · intro h
    unfold extentPoints
    simp [h]

/-- C4 (amended) witness at a concrete two-point table. -/
theorem extent_result_spec_witness :
    ∃ w s e n,
      getLayerExtent4326 (fun p => p) 4326 [some [((1 : Int), (2 : Int)), (3, 4)]]
        = some ⟨some w, some s, some e, some n⟩
      ∧ w ≤ 1 ∧ s ≤ 2 ∧ (1 : Int) ≤ e ∧ (2 : Int) ≤ n
      ∧ w ∈ (extentPoints (fun p => p) 4326 [some [((1 : Int), (2 : Int)), (3, 4)]]).map Prod.fst
      ∧ s ∈ (extentPoints (fun p => p) 4326 [some [((1 : Int), (2 : Int)), (3, 4)]]).map Prod.snd
      ∧ e ∈ (extentPoints (fun p => p) 4326 [some [((1 : Int), (2 : Int)), (3, 4)]]).map Prod.fst
      ∧ n ∈ (extentPoints (fun p => p) 4326 [some [((1 : Int), (2 : Int)), (3, 4)]]).map Prod.snd :=
  (extent_result_spec (fun p => p) 4326 [some [((1 : Int), (2 : Int)), (3, 4)]]).2.2.1
    (1, 2) (by decide)

/-- C7: the viewport query selects all columns plus the geometry serialized
as GeoJSON, filters to non-null geometries intersecting the 4326 viewport
envelope, caps the result at LIMIT 600, and wraps the geometry in
ST_Transform to 4326 exactly when the resolved SRID differs from 4326. -/
theorem buildViewportSQL_spec (l : Layer) (bbox : BBox) (srid : Int) :
    containsSub (buildViewportSQL l bbox srid 600)
      ("ST_AsGeoJSON(" ++ geomExprOf l.geomCol srid ++ ") AS geojson")
    ∧ containsSub (buildViewportSQL l bbox srid 600)
      ("WHERE " ++ l.geomCol ++ " IS NOT NULL")
    ∧ containsSub (buildViewportSQL l bbox srid 600)
      ("ST_Intersects(\n            " ++ geomExprOf l.geomCol srid
        ++ ",\n            ST_MakeEnvelope(" ++ toString bbox.west ++ ", "
        ++ toString bbox.south ++ ", " ++ toString bbox.east ++ ", "
        ++ toString bbox.north ++ ", 4326)")
    ∧ (∃ p, buildViewportSQL l bbox srid 600 = p ++ "LIMIT 600;")
    ∧ (∃ p, buildViewportSQL l bbox srid 600 = "SELECT\n          *,\n          " ++ p)
    ∧ (geomExprOf l.geomCol srid = l.geomCol ↔ srid = 4326)
    ∧ (geomExprOf l.geomCol srid = "ST_Transform(" ++ l.geomCol ++ ", 4326)" ↔ srid ≠ 4326) := by
  refine ⟨?_, ?_, ?_, ?_, ?_, ?_, ?_⟩
  · exact ⟨"SELECT\n          *,\n          ",
      "\n        FROM " ++ l.full ++ "\n        "
        ++ ("WHERE " ++ l.geomCol ++ " IS NOT NULL") ++ "\n          AND "
        ++ ("ST_Intersects(\n            " ++ geomExprOf l.geomCol srid
          ++ ",\n            ST_MakeEnvelope(" ++ toString bbox.west ++ ", "
          ++ toString bbox.south ++ ", " ++ toString bbox.east ++ ", "
          ++ toString bbox.north ++ ", 4326)") ++ "\n          )\n        "
        ++ ("LIMIT " ++ toString (600 : Int) ++ ";"),
      by unfold buildViewportSQL; dsimp only; simp only [String.append_assoc]⟩
  · exact ⟨"SELECT\n          *,\n          "
        ++ ("ST_AsGeoJSON(" ++ geomExprOf l.geomCol srid ++ ") AS geojson")
        ++ "\n        FROM " ++ l.full ++ "\n        ",
      "\n          AND "
        ++ ("ST_Intersects(\n            " ++ geomExprOf l.geomCol srid
          ++ ",\n            ST_MakeEnvelope(" ++ toString bbox.west ++ ", "
          ++ toString bbox.south ++ ", " ++ toString bbox.east ++ ", "
          ++ toString bbox.north ++ ", 4326)") ++ "\n          )\n        "
        ++ ("LIMIT " ++ toString (600 : Int) ++ ";"),
      by unfold buildViewportSQL; dsimp only; simp only [String.append_assoc]⟩
  · exact ⟨"SELECT\n          *,\n          "
        ++ ("ST_AsGeoJSON(" ++ geomExprOf l.geomCol srid ++ ") AS geojson")
        ++ "\n        FROM " ++ l.full ++ "\n        "
        ++ ("WHERE " ++ l.geomCol ++ " IS NOT NULL") ++ "\n          AND ",
      "\n          )\n        " ++ ("LIMIT " ++ toString (600 : Int) ++ ";"),
      by unfold buildViewportSQL; dsimp only; simp only [String.append_assoc]⟩
  · have h6 : ("LIMIT " ++ toString (600 : Int) ++ ";") = "LIMIT 600;" := by decide
    refine ⟨"SELECT\n          *,\n          "
        ++ ("ST_AsGeoJSON(" ++ geomExprOf l.geomCol srid ++ ") AS geojson")
        ++ "\n        FROM " ++ l.full ++ "\n        "
        ++ ("WHERE " ++ l.geomCol ++ " IS NOT NULL") ++ "\n          AND "
        ++ ("ST_Intersects(\n            " ++ geomExprOf l.geomCol srid
          ++ ",\n            ST_MakeEnvelope(" ++ toString bbox.west ++ ", "
          ++ toString bbox.south ++ ", " ++ toString bbox.east ++ ", "
          ++ toString bbox.north ++ ", 4326)") ++ "\n          )\n        ", ?_⟩
    unfold buildViewportSQL
    dsimp only
    rw [h6]
  · exact ⟨("ST_AsGeoJSON(" ++ geomExprOf l.geomCol srid ++ ") AS geojson")
        ++ "\n        FROM " ++ l.full ++ "\n        "
        ++ ("WHERE " ++ l.geomCol ++ " IS NOT NULL") ++ "\n          AND "
        ++ ("ST_Intersects(\n            " ++ geomExprOf l.geomCol srid
          ++ ",\n            ST_MakeEnvelope(" ++ toString bbox.west ++ ", "
          ++ toString bbox.south ++ ", " ++ toString bbox.east ++ ", "
          ++ toString bbox.north ++ ", 4326)") ++ "\n          )\n        "
        ++ ("LIMIT " ++ toString (600 : Int) ++ ";"),
      by unfold buildViewportSQL; dsimp only; simp only [String.append_assoc]⟩
  · by_cases h : srid = 4326
    · simp [geomExprOf, h]
    · simp [geomExprOf, h, st_transform_ne l.geomCol]
  · by_cases h : srid = 4326
    · simp [geomExprOf, h, (st_transform_ne l.geomCol).symm]
    · simp [geomExprOf, h]

/-- C7 witness: concrete non-4326 SRID wraps the geometry in ST_Transform
and the query keeps the non-null-geometry filter. -/
theorem buildViewportSQL_spec_witness :
    geomExprOf "geom" 3857 = "ST_Transform(" ++ "geom" ++ ", 4326)" ∧
    containsSub (buildViewportSQL demoLayer demoBBox 3857 600)
      ("WHERE " ++ "geom" ++ " IS NOT NULL") :=
  ⟨(buildViewportSQL_spec demoLayer demoBBox 3857).2.2.2.2.2.2.mpr (by decide),
    (buildViewportSQL_spec demoLayer demoBBox 3857).2.1⟩
